import Mathlib

/-!
Verification development for the coriolis-logger InfluxDB datastore
(`datastore/influxdb/influxdb.go`).

The Go code is shallowly embedded: the mutable `InfluxDBDataStore` receiver
becomes an explicit state record threaded through each operation, the backing
InfluxDB connection becomes an oracle argument (`Option String`: `none` means
the backend accepted the batch, `some e` means it failed with error text `e`),
channels (`flushNow`, `flushed`, `quit`, `closed`, `ctx.Done()`) become events
of a worker step function plus outcome arguments for the one producer that
blocks on them, and `time.Time` values become their `UnixNano` integer.
Byte slices of log text are modelled as `List Char` (the only byte the code
inspects is the trailing newline, which in UTF-8 is a single byte that can
only be the final byte of the one-byte character U+000A).
-/

/-- Modelled from the spec: the syslog dialect tag carried by a `LogMessage`
(the `logging` package is not among these sources; the spec describes "two
message-format dialects", the legacy one being RFC3164). -/
inductive SyslogRFC
  | rfc3164
  | rfc5424
deriving DecidableEq, Repr

/-- Modelled from the spec: `LogMessage`, "one structured log record
(timestamp, hostname, severity, facility, application name, body, dialect
tag)". Severity and facility are bounded enums in the missing `logging`
package; they are modelled as their syslog numeric codes. The timestamp is
the `UnixNano` value of the Go `time.Time`. -/
structure LogMessage where
  Timestamp : Int
  Hostname : String
  Severity : Nat
  Facility : Nat
  BinaryName : String
  Message : String
  RFC : SyslogRFC
deriving DecidableEq, Repr

/-- Modelled from the spec: the rendering `Severity.String()` lives in the
missing `logging` package; nothing in the claims depends on the exact text,
so the numeric code is rendered in decimal. -/
def severityString (s : Nat) : String := toString s

/-- Modelled from the spec: the rendering `Facility.String()` lives in the
missing `logging` package; nothing in the claims depends on the exact text. -/
def facilityString (f : Nat) : String := toString f

/-- An InfluxDB point as built by `client.NewPoint(logMsg.BinaryName, tags,
fields, tm)`: measurement key, tag set, the single `message` field, and the
timestamp. -/
structure Point where
  measurement : String
  tags : List (String × String)
  message : String
  timestamp : Int
deriving DecidableEq, Repr

/-- Message text of `errors.Wrap(err, msg)`: the wrapping message, a colon
and a space, then the cause. -/
def wrapErr (msg cause : String) : String := msg ++ ": " ++ cause

/-- The observable state of an `InfluxDBDataStore`: the point buffer
`i.points`, the batches successfully submitted to the backing store via
`i.con.Write` (in submission order), the error lines written via
`log.Errorf`, whether the `closed` channel has been closed (the deferred
`close(i.closed)` runs when `doWork` returns), and how many acknowledgments
have been sent on the `flushed` channel. -/
structure InfluxDBDataStore where
  points : List Point
  submitted : List (List Point)
  logged : List String
  closed : Bool
  acks : Nat
deriving DecidableEq, Repr

/-- `InfluxDBDataStore.flush`: `client.NewBatchPoints` with the constant
precision `"ns"` never fails, so its error branch is unreachable; if the
buffer is non-empty, the points are submitted as one batch; on backend error
the wrapped error is returned and the buffer is left as it was (the clearing
assignment `i.points = []` sits after the error return); on success the
buffer is reset to empty. The `backend` argument is the outcome of
`i.con.Write(bp)`. -/
def flush (backend : Option String) (i : InfluxDBDataStore) :
    InfluxDBDataStore × Option String :=
  if 0 < i.points.length then
    match backend with
    | some e => (i, some (wrapErr "writing log line to influx" e))
    | none => ({ i with points := [], submitted := i.submitted ++ [i.points] }, none)
  else (i, none)

/-- One wakeup of the `doWork` select loop. -/
inductive WorkerEvent
  | ctxDone
  | tick (backend : Option String)
  | flushNowReq (backend : Option String)
  | quitClosed
deriving DecidableEq, Repr

/-- `log.Errorf("failed to flush logs to backend: %v", err)` applied to an
optional flush error. -/
def logFlushFailure (i : InfluxDBDataStore) : Option String → InfluxDBDataStore
  | none => i
  | some e => { i with logged := i.logged ++ ["failed to flush logs to backend: " ++ e] }

/-- One iteration of `InfluxDBDataStore.doWork`: the returned `Bool` is
whether the loop continues. `ctx.Done()` and `quit` both make `doWork`
return, firing the deferred `close(i.closed)` — with no flush. A ticker
tick flushes and logs any error. A `flushNow` request flushes, logs any
error, and sends the acknowledgment on `flushed` unconditionally. -/
def doWorkStep : WorkerEvent → InfluxDBDataStore → InfluxDBDataStore × Bool
  | .ctxDone, i => ({ i with closed := true }, false)
  | .tick backend, i =>
      let r := flush backend i
      (logFlushFailure r.1 r.2, true)
  | .flushNowReq backend, i =>
      let r := flush backend i
      ({ logFlushFailure r.1 r.2 with acks := r.1.acks + 1 }, true)
  | .quitClosed, i => ({ i with closed := true }, false)

/-- `InfluxDBDataStore.Wait` blocks on `<-i.closed`; it has returned exactly
when the `closed` channel has been closed. -/
def Wait (i : InfluxDBDataStore) : Bool := i.closed

/-- `InfluxDBDataStore.Rotate`: the body is `return nil`. -/
def Rotate (i : InfluxDBDataStore) (olderThan : Int) : InfluxDBDataStore × Option String :=
  (i, none)

/-- The point `InfluxDBDataStore.Write` builds from `logMsg`: tags
{hostname, severity, facility}, the single `message` field, measurement key
`BinaryName`, and timestamp `logMsg.Timestamp` overridden by `time.Now()`
(the `now` argument) when the dialect is RFC3164. `client.NewPoint` fails
only for an empty field set or unsupported field values; here the field set
is always the one string field `message`, so it always succeeds. -/
def buildPoint (now : Int) (logMsg : LogMessage) : Point :=
  { measurement := logMsg.BinaryName
    tags := [("hostname", logMsg.Hostname),
             ("severity", severityString logMsg.Severity),
             ("facility", facilityString logMsg.Facility)]
    message := logMsg.Message
    timestamp := if logMsg.RFC = SyslogRFC.rfc3164 then now else logMsg.Timestamp }

/-- What happens on the `flushNow`/`flushed` channel pair while a
threshold-crossing `Write` waits: either the worker handles the request
(running `flush` with the given backend outcome, logging any error, and
acknowledging) within the 60-second window, or no acknowledgment arrives in
time and the `time.After(60 * time.Second)` branch fires. -/
inductive FlushNowOutcome
  | timedOut
  | acked (backend : Option String)
deriving DecidableEq, Repr

/-- Result of one `Write` call: the datastore state afterwards, how many
values the call sent on the `flushNow` channel, and the returned error. -/
structure WriteResult where
  store : InfluxDBDataStore
  flushRequests : Nat
  error : Option String
deriving DecidableEq, Repr

/-- `InfluxDBDataStore.Write`: build the point, append it to the buffer;
if the buffer has reached 20000 points, send exactly one request on
`flushNow` and wait for the acknowledgment. While `Write` waits, the only
transition touching this state is the worker's `flushNowReq` handling, so
its effect (or absence, on timeout) is folded in via `outcome`. On
acknowledgment `Write` returns `nil` whatever the flush outcome was; on
timeout it returns the distinct timeout error with the request still
pending and no flush performed. -/
def Write (now : Int) (outcome : FlushNowOutcome) (logMsg : LogMessage)
    (i : InfluxDBDataStore) : WriteResult :=
  let i1 : InfluxDBDataStore := { i with points := i.points ++ [buildPoint now logMsg] }
  if 20000 ≤ i1.points.length then
    match outcome with
    | .acked backend =>
        let r := flush backend i1
        { store := { logFlushFailure r.1 r.2 with acks := r.1.acks + 1 }
          flushRequests := 1
          error := none }
    | .timedOut =>
        { store := i1, flushRequests := 1, error := some "timed out flushing logs" }
  else { store := i1, flushRequests := 0, error := none }

/-- Read-filter parameters (`params.QueryParams`, used by this file's code
through the fields `BinaryName`, `Hostname`, `StartDate`, `EndDate`,
`Severity`). A date is `none` when it equals Go's zero `time.Time`
(`i.params.StartDate.Equal(time.Time{})`) and `some n` when set, where `n`
is its `UnixNano` value. -/
structure QueryParams where
  BinaryName : String
  Hostname : String
  StartDate : Option Int
  EndDate : Option Int
  Severity : Nat
deriving DecidableEq, Repr

/-- The single-quote character the query puts around the hostname value. -/
def singleQuote : String := String.singleton (Char.ofNat 39)

/-- `influxDBReader.prepareQuery`: reject an empty `BinaryName`; start from
the select clause; append `" where "` when any of the three filters is set;
collect at most one time bound (`StartDate` wins over `EndDate`) and the
hostname equality filter; join them with `" and "`. The commented-out
severity filter in the source contributes nothing. -/
def prepareQuery (p : QueryParams) : Except String String :=
  if p.BinaryName = "" then
    .error "missing application name"
  else
    let q0 := "select time,severity,message from " ++ p.BinaryName
    let q1 := if p.StartDate.isSome ∨ p.EndDate.isSome ∨ p.Hostname ≠ "" then
        q0 ++ " where "
      else q0
    let timeOpts : List String :=
      match p.StartDate with
      | some sd => ["time >= " ++ toString sd]
      | none =>
        match p.EndDate with
        | some ed => ["time <= " ++ toString ed]
        | none => []
    let options := timeOpts ++
      (if p.Hostname ≠ "" then
        ["hostname=" ++ singleQuote ++ p.Hostname ++ singleQuote]
      else [])
    if 0 < options.length then .ok (q1 ++ String.intercalate " and " options)
    else .ok q1

/-- Errors returned by `ReadNext`: the `io.EOF` sentinel returned without
wrapping, or an `errors.Wrap(cause, msg)` value. -/
inductive ReadErr
  | eofSentinel
  | wrapped (msg : String) (cause : String)
deriving DecidableEq, Repr

/-- The `Error()` text of a `ReadNext` error: `io.EOF` prints `"EOF"`, a
wrapped error prints the wrapping message, a colon and a space, then the
cause. -/
def renderReadErr : ReadErr → String
  | .eofSentinel => "EOF"
  | .wrapped msg cause => wrapErr msg cause

/-- Outcome of `i.result.NextResponse()`: one more chunk (its `Results`,
each with its `Series`, each with its `Values` rows, of which the code reads
only column 2, the `message` text, as bytes), exhaustion (`io.EOF`), or a
backend error. -/
inductive NextResp
  | chunk (results : List (List (List (List Char))))
  | eofResp
  | errResp (msg : String)
deriving DecidableEq, Repr

/-- Per-record rendering inside the `ReadNext` loops: a record that is
non-empty and whose last byte is not a newline gets a newline appended;
every other record (already newline-terminated, or empty) is written as
is. -/
def renderLine (line : List Char) : List Char :=
  if 0 < line.length ∧ line.getLast? ≠ some '\n' then line ++ ['\n'] else line

/-- The bytes `ReadNext` accumulates in `buf` for one chunk: the rendered
records of every series of every result, concatenated in iteration order
(`bytes.Buffer.Write` never returns an error, so the `"reading value"`
branch is unreachable). -/
def renderChunk (results : List (List (List (List Char)))) : List Char :=
  (results.map fun result =>
    (result.map fun serie => (serie.map renderLine).flatten).flatten).flatten

/-- Result of one `ReadNext` call: the writer state after the forced flush,
whether `i.result` is set afterwards, whether `i.datastore.flush()` was
invoked, the query strings passed to `QueryAsChunk` during the call, and the
returned value. -/
structure ReadResult where
  store : InfluxDBDataStore
  hasResult : Bool
  flushCalled : Bool
  executed : List String
  output : Except ReadErr (List Char)
deriving Repr

/-- The tail of `ReadNext` from `i.result.NextResponse()` on: `io.EOF` is
returned as is, any other error is wrapped as `"reading results"`, and a
chunk is rendered record by record. -/
def nextResponse (i : InfluxDBDataStore) (flushCalled : Bool)
    (executed : List String) (resp : NextResp) : ReadResult :=
  match resp with
  | .chunk results =>
      { store := i, hasResult := true, flushCalled := flushCalled,
        executed := executed, output := .ok (renderChunk results) }
  | .eofResp =>
      { store := i, hasResult := true, flushCalled := flushCalled,
        executed := executed, output := .error .eofSentinel }
  | .errResp e =>
      { store := i, hasResult := true, flushCalled := flushCalled,
        executed := executed, output := .error (.wrapped "reading results" e) }

/-- `influxDBReader.ReadNext`: when `i.result` is still `nil`, first call
`i.datastore.flush()` (its return value is discarded — `flushBackend` is
that flush's backend outcome), then build the query; a `prepareQuery` error
is wrapped as `"preparing query"` and nothing is executed; otherwise the
query is executed via `QueryAsChunk` exactly once — a failure there is
wrapped as `"executing query"` and `i.result` stays `nil`, a success sets
`i.result`. With a cursor in hand, proceed to `NextResponse` handling. When
`i.result` was already set, the call goes straight to `NextResponse` with
no flush and no query execution. -/
def ReadNext (p : QueryParams) (hasResult : Bool) (i : InfluxDBDataStore)
    (flushBackend : Option String) (execError : Option String)
    (resp : NextResp) : ReadResult :=
  if hasResult then nextResponse i false [] resp
  else
    let i2 := (flush flushBackend i).1
    match prepareQuery p with
    | .error e =>
        { store := i2, hasResult := false, flushCalled := true, executed := [],
          output := .error (.wrapped "preparing query" e) }
    | .ok q =>
        match execError with
        | some e =>
            { store := i2, hasResult := false, flushCalled := true,
              executed := [q], output := .error (.wrapped "executing query" e) }
        | none => nextResponse i2 true [q] resp

/-- The backend query shape exactly as claim C6 states it: the select
clause, "followed by a where-clause only when at least one optional filter
is set, containing at most one time bound (`time >= <start_ns>` when
`StartDate` is set, otherwise `time <= <end_ns>` when `EndDate` is set)
and, when `Hostname` is non-empty, the conjunct `hostname='<host>'`".
Spec-side definition, written from the claim's words for comparison with
`prepareQuery`. -/
def claimQueryShape (p : QueryParams) : String :=
  let base := "select time,severity,message from " ++ p.BinaryName
  let timeBound : List String :=
    match p.StartDate, p.EndDate with
    | some sd, _ => ["time >= " ++ toString sd]
    | none, some ed => ["time <= " ++ toString ed]
    | none, none => []
  let hostFilter : List String :=
    if p.Hostname ≠ "" then ["hostname=" ++ singleQuote ++ p.Hostname ++ singleQuote]
    else []
  let filters := timeBound ++ hostFilter
  if filters = [] then base
  else base ++ " where " ++ String.intercalate " and " filters

/-- A sample point for concrete instantiations. -/
def samplePoint : Point :=
  { measurement := "app", tags := [], message := "hello", timestamp := 0 }

/-- A datastore state with an empty buffer. -/
def emptyStore : InfluxDBDataStore :=
  { points := [], submitted := [], logged := [], closed := false, acks := 0 }

/-- A datastore state holding exactly one buffered point. -/
def oneBufferedStore : InfluxDBDataStore :=
  { points := [samplePoint], submitted := [], logged := [], closed := false, acks := 0 }

/-- A datastore state one point short of the 20000-point high-water mark. -/
def nearFullStore : InfluxDBDataStore :=
  { points := List.replicate 19999 samplePoint, submitted := [], logged := [],
    closed := false, acks := 0 }

/-- A sample legacy-dialect (RFC3164) message. -/
def legacyMsg : LogMessage :=
  { Timestamp := 111, Hostname := "h1", Severity := 3, Facility := 1,
    BinaryName := "app", Message := "hello", RFC := .rfc3164 }

/-- A sample RFC5424 message. -/
def modernMsg : LogMessage := { legacyMsg with RFC := .rfc5424 }

/-- Query parameters with only the application name set. -/
def plainParams : QueryParams :=
  { BinaryName := "app", Hostname := "", StartDate := none, EndDate := none,
    Severity := 0 }

/-- Query parameters with both dates and a hostname filter set. -/
def fullParams : QueryParams :=
  { BinaryName := "app", Hostname := "h1", StartDate := some 5, EndDate := some 9,
    Severity := 0 }

/-- Query parameters with an empty application name. -/
def noNameParams : QueryParams :=
  { BinaryName := "", Hostname := "", StartDate := none, EndDate := none,
    Severity := 0 }

theorem nearFullStore_points_length : nearFullStore.points.length = 19999 := by
  show (List.replicate 19999 samplePoint).length = 19999
  rw [List.length_replicate]

theorem flush_some_of_ne_nil (i : InfluxDBDataStore) (e : String)
    (h : i.points ≠ []) :
    flush (some e) i = (i, some (wrapErr "writing log line to influx" e)) := by
  have hp : 0 < i.points.length := List.length_pos.mpr h
  simp [flush, hp]

theorem flush_none_of_ne_nil (i : InfluxDBDataStore) (h : i.points ≠ []) :
    flush none i =
      ({ i with points := [], submitted := i.submitted ++ [i.points] }, none) := by
  have hp : 0 < i.points.length := List.length_pos.mpr h
  simp [flush, hp]

theorem Write_below_mark (i : InfluxDBDataStore) (logMsg : LogMessage) (now : Int)
    (outcome : FlushNowOutcome) (h : i.points.length + 1 < 20000) :
    Write now outcome logMsg i =
      { store := { i with points := i.points ++ [buildPoint now logMsg] },
        flushRequests := 0, error := none } := by
  have hc : ¬ 19999 ≤ i.points.length := by omega
  simp [Write, hc]

theorem Write_timedOut_eq (i : InfluxDBDataStore) (logMsg : LogMessage) (now : Int)
    (h : 20000 ≤ i.points.length + 1) :
    Write now .timedOut logMsg i =
      { store := { i with points := i.points ++ [buildPoint now logMsg] },
        flushRequests := 1, error := some "timed out flushing logs" } := by
  have hc : 19999 ≤ i.points.length := by omega
  simp [Write, hc]

theorem Write_acked_none_eq (i : InfluxDBDataStore) (logMsg : LogMessage) (now : Int)
    (h : 20000 ≤ i.points.length + 1) :
    Write now (.acked none) logMsg i =
      { store := { i with
            points := []
            submitted := i.submitted ++ [i.points ++ [buildPoint now logMsg]]
            acks := i.acks + 1 }
        flushRequests := 1
        error := none } := by
  have hc : 19999 ≤ i.points.length := by omega
  have hne : i.points ++ [buildPoint now logMsg] ≠ [] := by simp
  have h1 := flush_none_of_ne_nil
    { i with points := i.points ++ [buildPoint now logMsg] } hne
  simp [Write, hc, h1, logFlushFailure]

theorem Write_acked_some_eq (i : InfluxDBDataStore) (logMsg : LogMessage) (now : Int)
    (e : String) (h : 20000 ≤ i.points.length + 1) :
    Write now (.acked (some e)) logMsg i =
      { store := { i with
            points := i.points ++ [buildPoint now logMsg]
            logged := i.logged ++ ["failed to flush logs to backend: " ++
              wrapErr "writing log line to influx" e]
            acks := i.acks + 1 }
        flushRequests := 1
        error := none } := by
  have hc : 19999 ≤ i.points.length := by omega
  have hne : i.points ++ [buildPoint now logMsg] ≠ [] := by simp
  have h1 := flush_some_of_ne_nil
    { i with points := i.points ++ [buildPoint now logMsg] } e hne
  simp [Write, hc, h1, logFlushFailure]

/-- C9: `Rotate(olderThan)` is a no-op for every argument — it returns
`nil` and leaves the whole datastore state unchanged. -/
theorem rotate_noop (i : InfluxDBDataStore) (olderThan : Int) :
    Rotate i olderThan = (i, none) := rfl

/-- C3 (amended): on context cancellation the `doWork` loop returns
immediately, performing no final flush — the buffer and the submitted
batches are untouched — and the deferred `close(i.closed)` is what lets
`Wait()` return; points buffered at cancellation time are never submitted
by the shutdown path. -/
theorem cancellation_no_final_flush (i : InfluxDBDataStore) :
    doWorkStep .ctxDone i = ({ i with closed := true }, false) ∧
    (doWorkStep .ctxDone i).1.points = i.points ∧
    (doWorkStep .ctxDone i).1.submitted = i.submitted ∧
    Wait (doWorkStep .ctxDone i).1 = true :=
  ⟨rfl, rfl, rfl, rfl⟩

/-- C3: counterexample — with one point buffered at cancellation time the
worker exits, `Wait()` unblocks, and nothing was submitted to the backing
store: the buffered point was not flushed before `Wait()` returned,
contradicting the claim. -/
theorem cancellation_counterexample :
    Wait (doWorkStep .ctxDone oneBufferedStore).1 = true ∧
    (doWorkStep .ctxDone oneBufferedStore).1.submitted = [] ∧
    (doWorkStep .ctxDone oneBufferedStore).1.points = [samplePoint] :=
  ⟨rfl, rfl, rfl⟩

/-- C1 (amended): when a periodic flush's backend submission fails, the
error is logged and the buffer is retained rather than cleared: the
attempted points are still buffered when `flush` returns, and the next
successful periodic flush resubmits exactly them. -/
theorem periodic_flush_error_retains_buffer (i : InfluxDBDataStore) (e : String)
    (h : i.points ≠ []) :
    (doWorkStep (.tick (some e)) i).1.points = i.points ∧
    (doWorkStep (.tick (some e)) i).1.submitted = i.submitted ∧
    (doWorkStep (.tick (some e)) i).1.logged =
      i.logged ++ ["failed to flush logs to backend: " ++
        wrapErr "writing log line to influx" e] ∧
    (doWorkStep (.tick (some e)) i).2 = true ∧
    (doWorkStep (.tick none) (doWorkStep (.tick (some e)) i).1).1.submitted =
      i.submitted ++ [i.points] := by
  have h1 := flush_some_of_ne_nil i e h
  have h2 := flush_none_of_ne_nil
    { i with logged := i.logged ++ ["failed to flush logs to backend: " ++
        wrapErr "writing log line to influx" e] } h
  simp [doWorkStep, h1, h2, logFlushFailure]

/-- C1: witness for the amended theorem at a one-point buffer. -/
theorem periodic_flush_error_retains_buffer_witness :
    ([samplePoint] ≠ ([] : List Point)) ∧
    (doWorkStep (.tick (some "connection refused")) oneBufferedStore).1.points =
      [samplePoint] :=
  ⟨by decide,
    (periodic_flush_error_retains_buffer oneBufferedStore "connection refused"
      (by decide)).1⟩

/-- C1: counterexample — a failing periodic flush over a one-point buffer
leaves the buffer non-empty (it still holds the attempted point) and the
next successful flush resubmits that very point, contradicting "the point
buffer is empty and the attempted points are never resubmitted by a later
flush". -/
theorem periodic_flush_error_counterexample :
    (flush (some "connection refused") oneBufferedStore).1.points = [samplePoint] ∧
    (flush (some "connection refused") oneBufferedStore).1.points ≠ [] ∧
    (flush (some "connection refused") oneBufferedStore).2 =
      some "writing log line to influx: connection refused" ∧
    (flush none (flush (some "connection refused") oneBufferedStore).1).1.submitted =
      [[samplePoint]] := by
  decide

/-- C2 (amended): when the on-demand flush triggered by a threshold-crossing
`Write` fails at the backend, the worker logs the error and sends the
acknowledgment anyway, and the blocked `Write` returns `nil`: the backend
error is not propagated to the caller, and the points whose submission
failed remain buffered. -/
theorem ondemand_flush_error_swallowed (i : InfluxDBDataStore)
    (logMsg : LogMessage) (now : Int) (e : String)
    (h : 20000 ≤ i.points.length + 1) :
    (Write now (.acked (some e)) logMsg i).error = none ∧
    (Write now (.acked (some e)) logMsg i).store.points =
      i.points ++ [buildPoint now logMsg] ∧
    (Write now (.acked (some e)) logMsg i).store.logged =
      i.logged ++ ["failed to flush logs to backend: " ++
        wrapErr "writing log line to influx" e] ∧
    (Write now (.acked (some e)) logMsg i).store.acks = i.acks + 1 := by
  rw [Write_acked_some_eq i logMsg now e h]
  exact ⟨rfl, rfl, rfl, rfl⟩

/-- C2: witness for the amended theorem at a buffer crossing the mark. -/
theorem ondemand_flush_error_swallowed_witness :
    20000 ≤ nearFullStore.points.length + 1 ∧
    (Write 0 (.acked (some "connection refused")) legacyMsg nearFullStore).error =
      none := by
  have hlen : 20000 ≤ nearFullStore.points.length + 1 := by
    rw [nearFullStore_points_length]
  exact ⟨hlen,
    (ondemand_flush_error_swallowed nearFullStore legacyMsg 0 "connection refused"
      hlen).1⟩

/-- C2: counterexample — a `Write` that crosses the mark with a buffer of
19999 points and whose on-demand flush fails at the backend returns `nil`,
while the backend error only lands in the log: the error is not returned
synchronously to the blocked caller, contradicting the claim. -/
theorem ondemand_flush_error_counterexample :
    (Write 0 (.acked (some "connection refused")) legacyMsg nearFullStore).error =
      none ∧
    (Write 0 (.acked (some "connection refused")) legacyMsg nearFullStore).store.logged =
      ["failed to flush logs to backend: writing log line to influx: connection refused"] := by
  have hlen : 20000 ≤ nearFullStore.points.length + 1 := by
    rw [nearFullStore_points_length]
  rw [Write_acked_some_eq nearFullStore legacyMsg 0 "connection refused" hlen]
  refine ⟨rfl, ?_⟩
  decide

/-- C4: a `Write` whose appended point brings the buffer to the
20000-point high-water mark sends exactly one `flushNow` request and waits
(up to the 60-second window, modelled by `FlushNowOutcome`); when no
acknowledgment arrives in time it returns the distinct
"timed out flushing logs" error with the buffer intact; a `Write` whose
append leaves the buffer below the mark sends no request and returns `nil`;
and in every case no previously buffered point is lost — the buffer either
still holds all old points plus the new one, or they all went out as one
submitted batch. -/
theorem write_highWaterMark (i : InfluxDBDataStore) (logMsg : LogMessage)
    (now : Int) (outcome : FlushNowOutcome) :
    (20000 ≤ i.points.length + 1 →
      (Write now outcome logMsg i).flushRequests = 1 ∧
      (outcome = .timedOut →
        (Write now outcome logMsg i).error = some "timed out flushing logs" ∧
        (Write now outcome logMsg i).store.points =
          i.points ++ [buildPoint now logMsg])) ∧
    (i.points.length + 1 < 20000 →
      (Write now outcome logMsg i).flushRequests = 0 ∧
      (Write now outcome logMsg i).error = none ∧
      (Write now outcome logMsg i).store.points =
        i.points ++ [buildPoint now logMsg]) ∧
    ((Write now outcome logMsg i).store.points =
        i.points ++ [buildPoint now logMsg] ∨
      ((Write now outcome logMsg i).store.points = [] ∧
        (Write now outcome logMsg i).store.submitted =
          i.submitted ++ [i.points ++ [buildPoint now logMsg]])) := by
  refine ⟨fun hlen => ?_, fun hlt => ?_, ?_⟩
  · cases outcome with
    | timedOut =>
        rw [Write_timedOut_eq i logMsg now hlen]
        exact ⟨rfl, fun _ => ⟨rfl, rfl⟩⟩
    | acked backend =>
        cases backend with
        | none =>
            rw [Write_acked_none_eq i logMsg now hlen]
            exact ⟨rfl, fun hco => by simp at hco⟩
        | some e =>
            rw [Write_acked_some_eq i logMsg now e hlen]
            exact ⟨rfl, fun hco => by simp at hco⟩
  · rw [Write_below_mark i logMsg now outcome hlt]
    exact ⟨rfl, rfl, rfl⟩
  · by_cases hlen : 20000 ≤ i.points.length + 1
    · cases outcome with
      | timedOut =>
          left
          rw [Write_timedOut_eq i logMsg now hlen]
      | acked backend =>
          cases backend with
          | none =>
              right
              rw [Write_acked_none_eq i logMsg now hlen]
              exact ⟨rfl, rfl⟩
          | some e =>
              left
              rw [Write_acked_some_eq i logMsg now e hlen]
    · left
      rw [Write_below_mark i logMsg now outcome (by omega)]

/-- C4: witness — a buffer of 19999 points crossed by one more write, with
no acknowledgment in time. -/
theorem write_highWaterMark_witness :
    20000 ≤ nearFullStore.points.length + 1 ∧
    (Write 0 .timedOut legacyMsg nearFullStore).flushRequests = 1 ∧
    (Write 0 .timedOut legacyMsg nearFullStore).error =
      some "timed out flushing logs" := by
  have hlen : 20000 ≤ nearFullStore.points.length + 1 := by
    rw [nearFullStore_points_length]
  have h := write_highWaterMark nearFullStore legacyMsg 0 .timedOut
  exact ⟨hlen, (h.1 hlen).1, ((h.1 hlen).2 rfl).1⟩

/-- C10: `Write` is not atomic with respect to the buffer on the
flush-timeout path: the point built from the message was appended before
the wait, so after the timeout error returns it is still in the buffer,
and the next successful flush submits a batch containing it. -/
theorem write_timeout_point_retained (i : InfluxDBDataStore)
    (logMsg : LogMessage) (now : Int) (h : 20000 ≤ i.points.length + 1) :
    (Write now .timedOut logMsg i).error = some "timed out flushing logs" ∧
    (Write now .timedOut logMsg i).store.points =
      i.points ++ [buildPoint now logMsg] ∧
    buildPoint now logMsg ∈ (Write now .timedOut logMsg i).store.points ∧
    (flush none (Write now .timedOut logMsg i).store).1.submitted =
      i.submitted ++ [i.points ++ [buildPoint now logMsg]] ∧
    buildPoint now logMsg ∈ i.points ++ [buildPoint now logMsg] := by
  rw [Write_timedOut_eq i logMsg now h]
  have hne : i.points ++ [buildPoint now logMsg] ≠ [] := by simp
  have h2 := flush_none_of_ne_nil
    { i with points := i.points ++ [buildPoint now logMsg] } hne
  refine ⟨rfl, rfl, by simp, ?_, by simp⟩
  rw [h2]

/-- C10: witness — the timeout path at a buffer of 19999 points. -/
theorem write_timeout_point_retained_witness :
    20000 ≤ nearFullStore.points.length + 1 ∧
    buildPoint 0 legacyMsg ∈ (Write 0 .timedOut legacyMsg nearFullStore).store.points := by
  have hlen : 20000 ≤ nearFullStore.points.length + 1 := by
    rw [nearFullStore_points_length]
  exact ⟨hlen,
    (write_timeout_point_retained nearFullStore legacyMsg 0 hlen).2.2.1⟩

/-- C5: the point `Write` builds and appends carries, for the legacy
RFC3164 dialect, the wall-clock reading `now` taken during the call (hence
at least the instant `t0` at which `Write` was invoked) and never the
message's own timestamp field; for the other dialect it carries exactly the
message's `Timestamp`; and whatever the flush outcome, the buffer or the
submitted batch ends with exactly this point. -/
theorem write_timestamp_rule (logMsg : LogMessage) (now t0 : Int)
    (i : InfluxDBDataStore) (outcome : FlushNowOutcome) (h : t0 ≤ now) :
    (logMsg.RFC = .rfc3164 →
      (buildPoint now logMsg).timestamp = now ∧
      t0 ≤ (buildPoint now logMsg).timestamp) ∧
    (logMsg.RFC ≠ .rfc3164 →
      (buildPoint now logMsg).timestamp = logMsg.Timestamp) ∧
    ((Write now outcome logMsg i).store.points =
        i.points ++ [buildPoint now logMsg] ∨
      (Write now outcome logMsg i).store.submitted =
        i.submitted ++ [i.points ++ [buildPoint now logMsg]]) := by
  refine ⟨fun hr => ?_, fun hr => ?_, ?_⟩
  · simp [buildPoint, hr, h]
  · simp [buildPoint, hr]
  · by_cases hlen : 20000 ≤ i.points.length + 1
    · cases outcome with
      | timedOut =>
          left
          rw [Write_timedOut_eq i logMsg now hlen]
      | acked backend =>
          cases backend with
          | none =>
              right
              rw [Write_acked_none_eq i logMsg now hlen]
          | some e =>
              left
              rw [Write_acked_some_eq i logMsg now e hlen]
    · left
      rw [Write_below_mark i logMsg now outcome (by omega)]

/-- C5: witness — a legacy message written at wall-clock 5, invoked at
instant 3, over an empty store. -/
theorem write_timestamp_rule_witness :
    (3 : Int) ≤ 5 ∧
    (buildPoint 5 legacyMsg).timestamp = 5 ∧
    (buildPoint 5 modernMsg).timestamp = 111 := by
  refine ⟨by decide, ?_, ?_⟩
  · exact ((write_timestamp_rule legacyMsg 5 3 emptyStore .timedOut (by decide)).1
      (by decide)).1
  · exact (write_timestamp_rule modernMsg 5 3 emptyStore .timedOut (by decide)).2.1
      (by decide)

/-- C6: for every `QueryParams` with non-empty `BinaryName`, `prepareQuery`
succeeds and builds exactly the query shape the claim states — the select
clause, a where-clause only when at least one optional filter is set, at
most one time bound (start wins over end, an unset date adds no bound), and
the hostname conjunct when `Hostname` is non-empty. -/
theorem prepareQuery_shape (p : QueryParams) (h : p.BinaryName ≠ "") :
    prepareQuery p = .ok (claimQueryShape p) := by
  rcases p with ⟨bn, host, sd, ed, sev⟩
  simp only at h
  cases sd <;> cases ed <;> by_cases hh : host = "" <;>
    simp [prepareQuery, claimQueryShape, h, hh, String.append_assoc]

/-- C6: witness — both dates and the hostname filter set; the start bound
wins and the end date adds no bound. -/
theorem prepareQuery_shape_witness :
    prepareQuery fullParams = .ok (claimQueryShape fullParams) ∧
    claimQueryShape fullParams =
      "select time,severity,message from app where time >= 5 and hostname=" ++
        singleQuote ++ "h1" ++ singleQuote :=
  ⟨prepareQuery_shape fullParams (by decide), by decide⟩

/-- C7: with an empty `BinaryName`, a first `ReadNext` call (the cursor not
yet built) executes no backend query and fails with the
"preparing query"-wrapped "missing application name" error, whose rendered
text contains "missing application name". -/
theorem readNext_missing_app_name (p : QueryParams) (i : InfluxDBDataStore)
    (flushBackend execError : Option String) (resp : NextResp)
    (h : p.BinaryName = "") :
    (ReadNext p false i flushBackend execError resp).executed = [] ∧
    (ReadNext p false i flushBackend execError resp).output =
      .error (.wrapped "preparing query" "missing application name") ∧
    ∃ pre post,
      renderReadErr (.wrapped "preparing query" "missing application name") =
        pre ++ "missing application name" ++ post := by
  have hq : prepareQuery p = .error "missing application name" := by
    simp [prepareQuery, h]
  refine ⟨by simp [ReadNext, hq], by simp [ReadNext, hq],
    "preparing query: ", "", by decide⟩

/-- C7: witness — empty application name over an empty store. -/
theorem readNext_missing_app_name_witness :
    noNameParams.BinaryName = "" ∧
    (ReadNext noNameParams false emptyStore none none .eofResp).executed = [] :=
  ⟨rfl, (readNext_missing_app_name noNameParams emptyStore none none .eofResp rfl).1⟩

/-- C8 (amended): a first `ReadNext` call whose preparation and execution
succeed forces a flush of the writer's buffer and executes the built query
exactly once, setting the cursor so that subsequent calls flush nothing and
execute nothing; a successful call returns the chunk's records concatenated,
where a newline is appended to every non-empty record lacking one (an empty
record is passed through without a newline); exhaustion returns the `io.EOF`
sentinel unwrapped; and every other backend error is returned wrapped,
distinguishable from the sentinel. -/
theorem readNext_contract (p : QueryParams) (i : InfluxDBDataStore)
    (flushBackend execError : Option String) (resp : NextResp) :
    (∀ q, prepareQuery p = .ok q → execError = none →
      (ReadNext p false i flushBackend execError resp).flushCalled = true ∧
      (ReadNext p false i flushBackend execError resp).executed = [q] ∧
      (ReadNext p false i flushBackend execError resp).hasResult = true ∧
      (ReadNext p false i flushBackend execError resp).store =
        (flush flushBackend i).1) ∧
    ((ReadNext p true i flushBackend execError resp).flushCalled = false ∧
      (ReadNext p true i flushBackend execError resp).executed = []) ∧
    (∀ results, resp = .chunk results →
      (ReadNext p true i flushBackend execError resp).output =
        .ok (renderChunk results)) ∧
    (∀ line : List Char, line ≠ [] → (renderLine line).getLast? = some '\n') ∧
    renderLine [] = [] ∧
    (resp = .eofResp →
      (ReadNext p true i flushBackend execError resp).output =
        .error .eofSentinel) ∧
    (∀ e, resp = .errResp e →
      (ReadNext p true i flushBackend execError resp).output =
        .error (.wrapped "reading results" e) ∧
      ReadErr.wrapped "reading results" e ≠ ReadErr.eofSentinel) := by
  refine ⟨?_, ?_, ?_, ?_, rfl, ?_, ?_⟩
  · intro q hq he
    subst he
    cases resp <;> simp [ReadNext, hq, nextResponse]
  · cases resp <;> simp [ReadNext, nextResponse]
  · intro results hr
    subst hr
    simp [ReadNext, nextResponse]
  · intro line hl
    unfold renderLine
    by_cases hc : 0 < line.length ∧ line.getLast? ≠ some '\n'
    · rw [if_pos hc, List.getLast?_concat]
    · rw [if_neg hc]
      push_neg at hc
      exact hc (List.length_pos.mpr hl)
  · intro hr
    subst hr
    simp [ReadNext, nextResponse]
  · intro e hr
    subst hr
    exact ⟨by simp [ReadNext, nextResponse], by simp⟩

/-- C8: witness for the amended theorem — a successful first call over the
plain parameters with a one-record chunk. -/
theorem readNext_contract_witness :
    prepareQuery plainParams = .ok "select time,severity,message from app" ∧
    (ReadNext plainParams false emptyStore none none
        (.chunk [[[['a']]]])).executed =
      ["select time,severity,message from app"] := by
  have hq : prepareQuery plainParams = .ok "select time,severity,message from app" := by
    rfl
  exact ⟨hq,
    ((readNext_contract plainParams emptyStore none none
      (.chunk [[[['a']]]])).1 _ hq rfl).2.1⟩

/-- C8: counterexample — a successful call whose chunk holds exactly one
record, the empty one: the call returns the empty byte string, so that
record is not newline-terminated even though it lacked a newline,
contradicting "a terminating newline is appended to any record lacking
one". -/
theorem readNext_empty_record_counterexample :
    (ReadNext plainParams true emptyStore none none
        (.chunk [[[[]]]])).output = .ok ([] : List Char) ∧
    ([] : List Char).getLast? ≠ some '\n' :=
  ⟨rfl, by decide⟩
